import Mathlib

/-!
Shallow embedding of the HearSay backend SSO identity-resolution flow
(src/backend/users/views.py, src/backend/users/services.py) and the
onboarding endpoint (src/backend/onboarding/views.py).

Modelling conventions:
- Python strings are Lean String values; slicing and splitting are done on
  the underlying character list so that everything reduces in the kernel.
- The Django ORM account table is a list of Account rows plus an
  auto-increment counter.  The unique constraints declared in
  src/backend/users/models.py (email unique, username unique, sso_id
  unique when set) are enforced by the store on insert and update; a
  violation is the IntegrityError the application would see.
- Randomness (the secrets.choice suffix stream) is an oracle: a list of
  suffix strings consumed by the regeneration loop.  A run that exhausts
  the oracle is modelled as none, covering the unbounded while loop.
- Store traffic is recorded as a trace of StoreOp values so that
  read-only behaviour and write counts can be stated.
-/

/-- Verified user info extracted from an SSO token
(dataclass SSOUserInfo in src/backend/users/services.py). -/
structure SSOUserInfo where
  provider : String
  sso_id : String
  email : String
  first_name : Option String
  last_name : Option String
deriving DecidableEq, Repr

/-- One row of the users table (class User in src/backend/users/models.py).
The unusable_password flag models the result of set_unusable_password:
rows inserted by User.objects.create start with an empty, not-yet-unusable
password, and only a later save marks it unusable. -/
structure Account where
  id : Nat
  username : String
  email : String
  first_name : String
  last_name : String
  sso_provider : Option String
  sso_id : Option String
  onboarding_completed : Bool
  unusable_password : Bool
deriving DecidableEq, Repr

/-- The account store: rows plus the auto-increment id counter. -/
structure DB where
  accounts : List Account
  nextId : Nat
deriving DecidableEq, Repr

/-- One operation against the account store. -/
inductive StoreOp
  | lookupSso (provider sso_id : String)
  | lookupEmail (email : String)
  | lookupUsername (username : String)
  | insert (a : Account)
  | update (id : Nat) (a : Account)
deriving DecidableEq, Repr

/-- Writes are inserts and updates; lookups are reads. -/
def StoreOp.isWrite : StoreOp → Bool
  | .insert _ => true
  | .update _ _ => true
  | _ => false

/-- The write operations of a trace. -/
def writeOps (t : List StoreOp) : List StoreOp := t.filter StoreOp.isWrite

def StoreOp.isSsoLookup : StoreOp → Bool
  | .lookupSso _ _ => true
  | _ => false

/-- How many times the trace ran the (provider, sso_id) lookup that heads
the lookup-then-act sequence of find_or_create_user. -/
def countSsoLookups (t : List StoreOp) : Nat := t.countP StoreOp.isSsoLookup

/-- Python email.split(chr 64)[0]: the part of the string before the first
at sign (src/backend/users/views.py line 36). -/
def emailLocalPart (email : String) : String :=
  String.mk (email.data.takeWhile (fun c => c != '@'))

/-- Python slicing [:20]: at most the first 20 characters. -/
def truncate20 (s : String) : String := String.mk (s.data.take 20)

/-- generate_username from src/backend/users/views.py lines 30-38, with the
random six-character suffix supplied by the caller. -/
def generate_username (email : String) (suffix : String) : String :=
  truncate20 (emailLocalPart email) ++ "_" ++ suffix

/-- The expression user_info.email or the literal string user, as passed to
generate_username in src/backend/users/views.py line 179. -/
def usernameBase (email : String) : String :=
  if email == "" then "user" else email

/-- string.ascii_lowercase + string.digits, the suffix alphabet of
generate_username. -/
def usernameCharset : List Char := "abcdefghijklmnopqrstuvwxyz0123456789".toList

/-- The six-character random suffix: six independent choices from the
36-character alphabet (secrets.choice in src/backend/users/views.py line 37). -/
def randomSuffix (choices : Fin 6 → Fin 36) : String :=
  String.mk ((List.finRange 6).map (fun i => usernameCharset.getD (choices i).val 'a'))

/-- calculate_proficiency from src/backend/onboarding/views.py lines 21-38. -/
def calculate_proficiency (quiz_score : Int) : String :=
  if quiz_score ≤ 1 then "beginner"
  else if quiz_score ≤ 3 then "elementary"
  else if quiz_score == 4 then "intermediate"
  else "upper_intermediate"

/-- The proficiency table exactly as the spec words it (spec section 4.3):
0 and 1 to beginner, 2 and 3 to elementary, 4 to intermediate, 5 to
upper_intermediate.  Stated separately from the code translation so the two
can be compared. -/
def specProficiency (quiz_score : Int) : String :=
  if quiz_score = 0 ∨ quiz_score = 1 then "beginner"
  else if quiz_score = 2 ∨ quiz_score = 3 then "elementary"
  else if quiz_score = 4 then "intermediate"
  else "upper_intermediate"

/-- User.objects.filter(sso_provider=..., sso_id=...).first()
(src/backend/users/views.py lines 158-161). -/
def findBySso (db : DB) (provider sso_id : String) : Option Account :=
  db.accounts.find? (fun a => a.sso_provider == some provider && a.sso_id == some sso_id)

/-- User.objects.filter(email=...).first()
(src/backend/users/views.py line 169). -/
def findByEmail (db : DB) (email : String) : Option Account :=
  db.accounts.find? (fun a => a.email == email)

/-- User.objects.filter(username=...).exists()
(src/backend/users/views.py line 182). -/
def usernameTaken (db : DB) (uname : String) : Bool :=
  db.accounts.any (fun a => a.username == uname)

/-- The unique constraints of src/backend/users/models.py checked for an
insert: email is globally unique, username is unique, sso_id is unique
when non-null. -/
def insertConflict (db : DB) (a : Account) : Bool :=
  db.accounts.any (fun b =>
    b.email == a.email || b.username == a.username ||
      (a.sso_id.isSome && b.sso_id == a.sso_id))

/-- The same unique constraints checked when saving an existing row: the
row itself (same id) is exempt. -/
def updateConflict (db : DB) (a : Account) : Bool :=
  db.accounts.any (fun b =>
    b.id != a.id &&
      (b.email == a.email || b.username == a.username ||
        (a.sso_id.isSome && b.sso_id == a.sso_id)))

/-- Persist an updated row: replace the row with the matching id. -/
def applyUpdate (db : DB) (a : Account) : DB :=
  { accounts := db.accounts.map (fun b => if b.id == a.id then a else b),
    nextId := db.nextId }

/-- The keyword arguments of User.objects.create in
src/backend/users/views.py lines 185-193: no password handling happens in
the insert itself, so the row starts with unusable_password false. -/
def mkNewAccount (db : DB) (info : SSOUserInfo) (uname : String) : Account :=
  { id := db.nextId,
    username := uname,
    email := info.email,
    first_name := info.first_name.getD "",
    last_name := info.last_name.getD "",
    sso_provider := some info.provider,
    sso_id := some info.sso_id,
    onboarding_completed := false,
    unusable_password := false }

/-- Outcome of find_or_create_user: the returned row and the new store
state, or the IntegrityError a rejected write raises, carrying the store
state at that point. -/
inductive ResolveResult
  | ok (user : Account) (db : DB)
  | integrityError (db : DB)
deriving DecidableEq, Repr

/-- The while loop of src/backend/users/views.py lines 181-183: generate a
username, query whether it is taken, regenerate on collision.  The suffix
oracle supplies the successive random suffixes; none models a run that
consumes more randomness than the oracle holds.  Returns the chosen
username and the username-existence queries issued. -/
def chooseUsername (db : DB) (base : String) : List String → Option (String × List StoreOp)
  | [] => none
  | s :: rest =>
    let uname := generate_username base s
    if usernameTaken db uname then
      match chooseUsername db base rest with
      | none => none
      | some (u, ops) => some (u, StoreOp.lookupUsername uname :: ops)
    else some (uname, [StoreOp.lookupUsername uname])

/-- The provisioning tail of find_or_create_user
(src/backend/users/views.py lines 178-198): pick a fresh username, insert
the row, then set_unusable_password and save the row again. -/
def provisionAccount (info : SSOUserInfo) (db : DB) (suffixes : List String)
    (t : List StoreOp) : Option (ResolveResult × List StoreOp) :=
  match chooseUsername db (usernameBase info.email) suffixes with
  | none => none
  | some (uname, uops) =>
    let a0 := mkNewAccount db info uname
    if insertConflict db a0 then
      some (ResolveResult.integrityError db, t ++ uops ++ [StoreOp.insert a0])
    else
      let db1 : DB := { accounts := db.accounts ++ [a0], nextId := db.nextId + 1 }
      let a1 := { a0 with unusable_password := true }
      if updateConflict db1 a1 then
        some (ResolveResult.integrityError db1,
          t ++ uops ++ [StoreOp.insert a0, StoreOp.update a0.id a1])
      else
        some (ResolveResult.ok a1 (applyUpdate db1 a1),
          t ++ uops ++ [StoreOp.insert a0, StoreOp.update a0.id a1])

/-- find_or_create_user from src/backend/users/views.py lines 143-198:
exact (provider, sso_id) match first, then email link, then provisioning. -/
def find_or_create_user (info : SSOUserInfo) (db : DB) (suffixes : List String) :
    Option (ResolveResult × List StoreOp) :=
  let t0 := [StoreOp.lookupSso info.provider info.sso_id]
  match findBySso db info.provider info.sso_id with
  | some u => some (ResolveResult.ok u db, t0)
  | none =>
    if info.email != "" then
      match findByEmail db info.email with
      | some u =>
        let u2 := { u with sso_provider := some info.provider, sso_id := some info.sso_id }
        let t1 := t0 ++ [StoreOp.lookupEmail info.email, StoreOp.update u.id u2]
        if updateConflict db u2 then some (ResolveResult.integrityError db, t1)
        else some (ResolveResult.ok u2 (applyUpdate db u2), t1)
      | none => provisionAccount info db suffixes (t0 ++ [StoreOp.lookupEmail info.email])
    else provisionAccount info db suffixes t0

/-- The single exception class raised by every verification failure in
src/backend/users/services.py (class TokenVerificationError). -/
structure TokenVerificationError where
  msg : String
deriving DecidableEq, Repr

/-- One entry of the JWKS document fetched from the Apple keys endpoint. -/
structure AppleKey where
  kid : String
deriving DecidableEq, Repr

/-- Outcome of the requests.get call for the Apple public keys
(src/backend/users/services.py lines 50-53): either the key list, or a
requests.RequestException (network failure or timeout). -/
inductive FetchOutcome
  | ok (keys : List AppleKey)
  | requestException
deriving DecidableEq, Repr

/-- Outcome of jwt.decode on the id token
(src/backend/users/services.py lines 73-79). -/
inductive DecodeOutcome
  | ok (sub : String) (email : String)
  | jwtError (msg : String)
deriving DecidableEq, Repr

/-- verify_apple_token from src/backend/users/services.py lines 33-95, as a
function of the outcomes of its two outside calls.  Both a JWTError and a
requests.RequestException are re-raised as the same TokenVerificationError
class (lines 90-95). -/
def verify_apple_token (fetch : FetchOutcome) (tokenKid : String)
    (decode : DecodeOutcome) : Except TokenVerificationError SSOUserInfo :=
  match fetch with
  | .requestException => Except.error { msg := "Failed to verify Apple token" }
  | .ok keys =>
    match keys.find? (fun k => k.kid == tokenKid) with
    | none => Except.error { msg := "Apple public key not found" }
    | some _ =>
      match decode with
      | .jwtError m => Except.error { msg := "Invalid Apple token: " ++ m }
      | .ok sub email =>
        Except.ok { provider := "apple", sso_id := sub, email := email,
                    first_name := none, last_name := none }

/-- Python truthiness of an optional request field: present and non-empty. -/
def truthy : Option String → Bool
  | none => false
  | some s => s != ""

/-- The provider validation of src/backend/users/views.py line 85. -/
def validProvider : Option String → Bool
  | none => false
  | some p => p == "apple" || p == "google"

/-- The overrides of src/backend/users/views.py lines 110-115: a provided
first or last name replaces the token value; a provided email fills in an
empty token email. -/
def applyOverrides (info : SSOUserInfo) (fn ln em : Option String) : SSOUserInfo :=
  let i1 := if truthy fn then { info with first_name := fn } else info
  let i2 := if truthy ln then { i1 with last_name := ln } else i1
  if truthy em && i2.email == "" then { i2 with email := em.getD "" } else i2

/-- The HTTP response of the sso_authenticate view, with the resulting
store state and the store trace of the request. -/
structure SsoResponse where
  status : Nat
  db : DB
  trace : List StoreOp
deriving DecidableEq, Repr

/-- sso_authenticate from src/backend/users/views.py lines 55-140, as a
function of the request fields and the outcome of verify_sso_token.  A
TokenVerificationError yields 401 (lines 129-134); any other exception,
including an IntegrityError from the store, yields 500 (lines 135-140). -/
def sso_authenticate (provider id_token : Option String)
    (verify : Except TokenVerificationError SSOUserInfo)
    (fn ln em : Option String) (db : DB) (suffixes : List String) :
    Option SsoResponse :=
  if !(validProvider provider) then some { status := 400, db := db, trace := [] }
  else if !(truthy id_token) then some { status := 400, db := db, trace := [] }
  else
    match verify with
    | Except.error _ => some { status := 401, db := db, trace := [] }
    | Except.ok info0 =>
      let info := applyOverrides info0 fn ln em
      match find_or_create_user info db suffixes with
      | none => none
      | some (ResolveResult.ok _ db1, t) => some { status := 200, db := db1, trace := t }
      | some (ResolveResult.integrityError dbE, t) =>
        some { status := 500, db := dbE, trace := t }

/-- Response status of the apple SSO endpoint as a function of the
verifier call outcomes. -/
def appleAuthStatus (fetch : FetchOutcome) (tokenKid : String)
    (decode : DecodeOutcome) (db : DB) (suffixes : List String) : Option Nat :=
  (sso_authenticate (some "apple") (some "token")
      (verify_apple_token fetch tokenKid decode) none none none db suffixes).map
    (fun r => r.status)

/-- A stored learning profile (class UserProfile in
src/backend/users/models.py), restricted to the fields written by
complete_onboarding. -/
structure UserProfileRec where
  user_id : Nat
  target_language : String
  proficiency_level : String
  goals : List String
  sessions_per_week : Int
  notifications_enabled : Bool
  reminder_time : Option (Nat × Nat)
deriving DecidableEq, Repr

/-- The request body of complete_onboarding, with each field optional as in
the dynamic request.data dict.  Fields arrive already typed; the isinstance
checks of the view are subsumed by the types. -/
structure OnboardingRequest where
  target_language : Option String
  quiz_score : Option Int
  goals : Option (List String)
  sessions_per_week : Option Int
  reminder_time : Option String
  notifications_enabled : Option Bool
deriving DecidableEq, Repr

/-- Python int() on a digit string, as used by parse_time. -/
def charsToNat? (cs : List Char) : Option Nat :=
  if cs.isEmpty then none
  else if cs.all (fun c => c.isDigit) then
    some (cs.foldl (fun acc c => acc * 10 + (c.toNat - 48)) 0)
  else none

/-- parse_time from src/backend/onboarding/views.py lines 41-49: split on
the colon, convert the first two parts, and build a time value; any
ValueError or IndexError yields None, as does a missing or empty string.
The datetime.time constructor rejects hours over 23 and minutes over 59. -/
def parse_time (timeStr : Option String) : Option (Nat × Nat) :=
  match timeStr with
  | none => none
  | some s =>
    if s == "" then none
    else
      match s.data.splitOn ':' with
      | h :: m :: _ =>
        match charsToNat? h, charsToNat? m with
        | some hh, some mm => if hh < 24 && mm < 60 then some (hh, mm) else none
        | _, _ => none
      | _ => none

/-- UserProfile.objects.update_or_create keyed on the user
(src/backend/onboarding/views.py lines 118-128). -/
def upsertProfile (profiles : List UserProfileRec) (p : UserProfileRec) :
    List UserProfileRec :=
  if profiles.any (fun q => q.user_id == p.user_id) then
    profiles.map (fun q => if q.user_id == p.user_id then p else q)
  else profiles ++ [p]

/-- The HTTP response of complete_onboarding together with the resulting
user row and profile table. -/
structure OnboardingResponse where
  status : Nat
  user : Account
  profiles : List UserProfileRec
deriving DecidableEq, Repr

/-- complete_onboarding from src/backend/onboarding/views.py lines 52-146. -/
def complete_onboarding (user : Account) (req : OnboardingRequest)
    (profiles : List UserProfileRec) : OnboardingResponse :=
  if user.onboarding_completed then
    { status := 400, user := user, profiles := profiles }
  else
    match req.target_language with
    | none => { status := 400, user := user, profiles := profiles }
    | some tl =>
      if !(tl == "es" || tl == "fr") then
        { status := 400, user := user, profiles := profiles }
      else
        let quiz := req.quiz_score.getD 0
        if quiz < 0 || quiz > 5 then
          { status := 400, user := user, profiles := profiles }
        else
          let goals := req.goals.getD []
          let spw0 := req.sessions_per_week.getD 3
          let spw := if spw0 < 1 || spw0 > 7 then 3 else spw0
          let notif := req.notifications_enabled.getD true
          let rt := parse_time req.reminder_time
          let p : UserProfileRec :=
            { user_id := user.id,
              target_language := tl,
              proficiency_level := calculate_proficiency quiz,
              goals := goals,
              sessions_per_week := spw,
              notifications_enabled := notif,
              reminder_time := rt }
          let user1 := { user with onboarding_completed := true }
          { status := 200, user := user1, profiles := upsertProfile profiles p }

/-- A list element read at an in-bounds index with a default is a member. -/
theorem getD_mem_of_lt (l : List Char) (n : Nat) (d : Char) (h : n < l.length) :
    l.getD n d ∈ l := by
  unfold List.getD
  rw [List.get?_eq_get h]
  exact List.get_mem l n h

/-- Claim C9: on the closed range 0 to 5 the proficiency classifier agrees
with the table of the spec: 0 and 1 to beginner, 2 and 3 to elementary, 4
to intermediate, 5 to upper_intermediate; it is a plain total function of
the score. -/
theorem calculate_proficiency_in_range (n : Int) (h0 : 0 ≤ n) (h5 : n ≤ 5) :
    calculate_proficiency n = specProficiency n := by
  interval_cases n <;> rfl

/-- Witness for claim C9 at score 4. -/
theorem calculate_proficiency_in_range_witness :
    (0 : Int) ≤ 4 ∧ (4 : Int) ≤ 5 ∧ calculate_proficiency 4 = specProficiency 4 :=
  ⟨by decide, by decide, calculate_proficiency_in_range 4 (by decide) (by decide)⟩

/-- Claim C10: when the onboarding flag of the user is already set,
complete_onboarding returns 400 and leaves the user row and the profile
table entirely unchanged, whatever the request body holds. -/
theorem complete_onboarding_already_completed_noop (user : Account)
    (req : OnboardingRequest) (profiles : List UserProfileRec)
    (h : user.onboarding_completed = true) :
    complete_onboarding user req profiles =
      { status := 400, user := user, profiles := profiles } := by
  unfold complete_onboarding
  rw [h]
  rfl

/-- A user row that has already completed onboarding. -/
def acctDone : Account :=
  { id := 7, username := "done_user", email := "done@x.com", first_name := "D",
    last_name := "U", sso_provider := some "google", sso_id := some "g7",
    onboarding_completed := true, unusable_password := true }

/-- Witness for claim C10: an already-onboarded user with a request body
that would not even validate is still answered 400 with nothing changed. -/
theorem complete_onboarding_already_completed_noop_witness :
    complete_onboarding acctDone
        { target_language := none, quiz_score := some 99, goals := none,
          sessions_per_week := none, reminder_time := some "bad",
          notifications_enabled := none } [] =
      { status := 400, user := acctDone, profiles := [] } :=
  complete_onboarding_already_completed_noop acctDone
    { target_language := none, quiz_score := some 99, goals := none,
      sessions_per_week := none, reminder_time := some "bad",
      notifications_enabled := none } [] rfl

/-- Claim C8: the generated username is the local part of the base email
truncated to its first 20 characters, an underscore, and a six-character
suffix over the lowercase letters and digits; an absent email makes the
base the literal string user; for the long example email the truncated
local part is exactly 20 characters long. -/
theorem generate_username_shape (email : String) (choices : Fin 6 → Fin 36) :
    generate_username (usernameBase email) (randomSuffix choices) =
      truncate20 (emailLocalPart (usernameBase email)) ++ "_" ++ randomSuffix choices
  ∧ (randomSuffix choices).length = 6
  ∧ (∀ c ∈ (randomSuffix choices).data, c ∈ usernameCharset)
  ∧ usernameBase "" = "user"
  ∧ (truncate20 (emailLocalPart
      "alice.wonderland12345678901234567890@example.com")).length = 20 := by
  refine ⟨rfl, ?_, ?_, rfl, by decide⟩
  · show ((List.finRange 6).map _).length = 6
    simp
  · intro c hc
    have h36 : usernameCharset.length = 36 := by decide
    simp only [randomSuffix, List.mem_map] at hc
    obtain ⟨i, _, rfl⟩ := hc
    exact getD_mem_of_lt _ _ _ (by rw [h36]; exact (choices i).isLt)

/-- Claim C5 counterexample: a network failure while fetching the Apple
keys is answered with status 401, exactly as an invalid token is, instead
of a distinct server-side status. -/
theorem network_failure_status_counterexample :
    appleAuthStatus FetchOutcome.requestException "kid1" (DecodeOutcome.ok "sub1" "")
        { accounts := [], nextId := 1 } [] = some 401
  ∧ appleAuthStatus (FetchOutcome.ok [{ kid := "kid1" }]) "kid1"
        (DecodeOutcome.jwtError "Signature verification failed.")
        { accounts := [], nextId := 1 } [] = some 401 :=
  ⟨rfl, rfl⟩

/-- Claim C5 amended: a network failure reaching the Apple key endpoint is
re-raised as the same TokenVerificationError class as an invalid token, and
sso_authenticate surfaces both with the authentication-failure status 401;
the two kinds are merged rather than classified distinctly. -/
theorem network_failure_merged_with_invalid_token (tokenKid m : String)
    (decode : DecodeOutcome) (db : DB) (suffixes : List String) :
    verify_apple_token FetchOutcome.requestException tokenKid decode =
      Except.error { msg := "Failed to verify Apple token" }
  ∧ appleAuthStatus FetchOutcome.requestException tokenKid decode db suffixes = some 401
  ∧ appleAuthStatus (FetchOutcome.ok [{ kid := tokenKid }]) tokenKid
      (DecodeOutcome.jwtError m) db suffixes = some 401 := by
  refine ⟨rfl, rfl, ?_⟩
  simp [appleAuthStatus, sso_authenticate, verify_apple_token, validProvider,
    truthy, List.find?]

/-- Claim C1: when the (provider, sso_id) pair already matches an account,
find_or_create_user returns that same account with the store unchanged, and
the store trace of the request contains no write. -/
theorem exact_match_signin_no_writes (info : SSOUserInfo) (db : DB)
    (suffixes : List String) (u : Account)
    (h : findBySso db info.provider info.sso_id = some u) :
    find_or_create_user info db suffixes =
      some (ResolveResult.ok u db, [StoreOp.lookupSso info.provider info.sso_id])
  ∧ writeOps [StoreOp.lookupSso info.provider info.sso_id] = [] := by
  constructor
  · unfold find_or_create_user
    rw [h]
  · rfl

/-- A returning google account. -/
def acctReturning : Account :=
  { id := 1, username := "g_aaaaaa", email := "g@x.com", first_name := "",
    last_name := "", sso_provider := some "google", sso_id := some "s1",
    onboarding_completed := false, unusable_password := true }

/-- Witness for claim C1: the returning sign-in at a concrete store. -/
theorem exact_match_signin_no_writes_witness :
    find_or_create_user
        { provider := "google", sso_id := "s1", email := "g@x.com",
          first_name := none, last_name := none }
        { accounts := [acctReturning], nextId := 2 } [] =
      some (ResolveResult.ok acctReturning { accounts := [acctReturning], nextId := 2 },
        [StoreOp.lookupSso "google" "s1"])
  ∧ writeOps [StoreOp.lookupSso "google" "s1"] = [] :=
  exact_match_signin_no_writes
    { provider := "google", sso_id := "s1", email := "g@x.com",
      first_name := none, last_name := none }
    { accounts := [acctReturning], nextId := 2 } [] acctReturning (by decide)

/-- A username returned by the regeneration loop is not taken in the store
it was checked against. -/
theorem chooseUsername_fresh (db : DB) (base : String) :
    ∀ (suffixes : List String) (uname : String) (ops : List StoreOp),
      chooseUsername db base suffixes = some (uname, ops) →
      usernameTaken db uname = false := by
  intro suffixes
  induction suffixes with
  | nil => intro uname ops h; simp [chooseUsername] at h
  | cons s rest ih =>
    intro uname ops h
    by_cases ht : usernameTaken db (generate_username base s)
    · simp only [chooseUsername, if_pos ht] at h
      cases hrec : chooseUsername db base rest with
      | none => rw [hrec] at h; simp at h
      | some pr =>
        rw [hrec] at h
        simp only [Option.some.injEq, Prod.mk.injEq] at h
        obtain ⟨h1, _⟩ := h
        have := ih pr.1 pr.2 (by rw [hrec])
        exact h1 ▸ this
    · simp only [chooseUsername, if_neg ht] at h
      simp only [Option.some.injEq, Prod.mk.injEq] at h
      obtain ⟨h1, _⟩ := h
      rw [← h1]
      exact Bool.not_eq_true _ ▸ Bool.of_not_eq_true ht

/-- Every operation the regeneration loop issues is a username-existence
query: neither a write nor a (provider, sso_id) lookup. -/
theorem chooseUsername_ops (db : DB) (base : String) :
    ∀ (suffixes : List String) (uname : String) (ops : List StoreOp),
      chooseUsername db base suffixes = some (uname, ops) →
      ∀ op ∈ ops, op.isWrite = false ∧ op.isSsoLookup = false := by
  intro suffixes
  induction suffixes with
  | nil => intro uname ops h; simp [chooseUsername] at h
  | cons s rest ih =>
    intro uname ops h
    by_cases ht : usernameTaken db (generate_username base s)
    · simp only [chooseUsername, if_pos ht] at h
      cases hrec : chooseUsername db base rest with
      | none => rw [hrec] at h; simp at h
      | some pr =>
        rw [hrec] at h
        simp only [Option.some.injEq, Prod.mk.injEq] at h
        obtain ⟨_, h2⟩ := h
        intro op hop
        rw [← h2] at hop
        rcases List.mem_cons.mp hop with rfl | hmem
        · exact ⟨rfl, rfl⟩
        · exact ih pr.1 pr.2 (by rw [hrec]) op hmem
    · simp only [chooseUsername, if_neg ht] at h
      simp only [Option.some.injEq, Prod.mk.injEq] at h
      obtain ⟨_, h2⟩ := h
      intro op hop
      rw [← h2] at hop
      rcases List.mem_cons.mp hop with rfl | hmem
      · exact ⟨rfl, rfl⟩
      · simp at hmem

/-- Over a mapped list, find? returns a designated element when every hit of
the predicate in the image is that element and at least one hit exists. -/
theorem find?_map_const {α : Type} (l : List α) (g : α → α) (P : α → Bool) (a : α)
    (h1 : ∀ b ∈ l, P (g b) = true → g b = a)
    (h2 : ∃ b ∈ l, P (g b) = true) :
    (l.map g).find? P = some a := by
  induction l with
  | nil => simp at h2
  | cons x t ih =>
    simp only [List.map, List.find?]
    cases hx : P (g x) with
    | true => rw [h1 x (by simp) hx]
    | false =>
      apply ih
      · intro b hb hPb
        exact h1 b (by simp [hb]) hPb
      · obtain ⟨b, hb, hPb⟩ := h2
        rcases List.mem_cons.mp hb with rfl | hbt
        · rw [hx] at hPb; exact absurd hPb (by simp)
        · exact ⟨b, hbt, hPb⟩

/-- Claim C2 amended: with no (provider, sso_id) match, a non-empty email
matching an existing account, and no other account holding the asserted
subject id or clashing with the row on its unique columns (the store
uniqueness invariant), find_or_create_user sets exactly the provider and
subject id of that account, persists it, and returns it; every other field
of the row and every other account is unchanged. -/
theorem email_link_updates_only_sso_fields (info : SSOUserInfo) (db : DB)
    (suffixes : List String) (u : Account)
    (h1 : findBySso db info.provider info.sso_id = none)
    (h2 : info.email ≠ "")
    (h3 : findByEmail db info.email = some u)
    (h4 : ∀ b ∈ db.accounts, b.id ≠ u.id → b.sso_id ≠ some info.sso_id)
    (h5 : ∀ b ∈ db.accounts, b.id ≠ u.id → b.email ≠ u.email)
    (h6 : ∀ b ∈ db.accounts, b.id ≠ u.id → b.username ≠ u.username) :
    find_or_create_user info db suffixes =
      some (ResolveResult.ok
        { u with sso_provider := some info.provider, sso_id := some info.sso_id }
        (applyUpdate db
          { u with sso_provider := some info.provider, sso_id := some info.sso_id }),
        [StoreOp.lookupSso info.provider info.sso_id,
         StoreOp.lookupEmail info.email,
         StoreOp.update u.id
           { u with sso_provider := some info.provider, sso_id := some info.sso_id }])
  ∧ (∀ b ∈ db.accounts, b.id ≠ u.id →
      b ∈ (applyUpdate db
        { u with sso_provider := some info.provider, sso_id := some info.sso_id }).accounts) := by
  have hcon : updateConflict db
      { u with sso_provider := some info.provider, sso_id := some info.sso_id } = false := by
    simp only [updateConflict, List.any_eq_false]
    intro b hb
    by_cases hid : b.id = u.id
    · simp [hid]
    · simp [hid, h4 b hb hid, h5 b hb hid, h6 b hb hid]
  constructor
  · unfold find_or_create_user
    rw [h1]
    have h2b : (info.email != "") = true := bne_iff_ne.mpr h2
    simp only [h2b, if_true, h3, hcon, Bool.false_eq_true, if_false]
    rfl
  · intro b hb hne
    simp only [applyUpdate, List.mem_map]
    refine ⟨b, hb, ?_⟩
    simp [hne]

/-- A google account that already holds subject id s1. -/
def acctGoogleS1 : Account :=
  { id := 1, username := "g_aaaaaa", email := "g@x.com", first_name := "",
    last_name := "", sso_provider := some "google", sso_id := some "s1",
    onboarding_completed := false, unusable_password := true }

/-- An account with no provider link, found by its email. -/
def acctEmailOnly : Account :=
  { id := 2, username := "e_bbbbbb", email := "e@x.com", first_name := "",
    last_name := "", sso_provider := none, sso_id := none,
    onboarding_completed := false, unusable_password := true }

/-- Store holding both accounts. -/
def dbLinkClash : DB := { accounts := [acctGoogleS1, acctEmailOnly], nextId := 3 }

/-- An apple assertion whose subject id string equals the one the google
account holds, with the email of the unlinked account. -/
def infoLinkClash : SSOUserInfo :=
  { provider := "apple", sso_id := "s1", email := "e@x.com",
    first_name := none, last_name := none }

/-- Claim C2 counterexample: the preconditions of the claim hold (no
(provider, subject_id) match, a non-empty email matching an account), yet
find_or_create_user does not return that account updated: the save is
rejected by the unique constraint on sso_id, because a google account
already holds the same subject id string, and the store is unchanged. -/
theorem email_link_conflict_counterexample :
    findBySso dbLinkClash "apple" "s1" = none
  ∧ findByEmail dbLinkClash "e@x.com" = some acctEmailOnly
  ∧ (find_or_create_user infoLinkClash dbLinkClash []).map (fun r => r.1) =
      some (ResolveResult.integrityError dbLinkClash) := by
  refine ⟨by decide, by decide, by decide⟩

/-- Store holding only the unlinked account. -/
def dbLinkOk : DB := { accounts := [acctEmailOnly], nextId := 3 }

/-- An apple assertion with a fresh subject id and the email of the
unlinked account. -/
def infoLinkOk : SSOUserInfo :=
  { provider := "apple", sso_id := "s2", email := "e@x.com",
    first_name := none, last_name := none }

/-- Witness for claim C2 at a concrete store. -/
theorem email_link_updates_only_sso_fields_witness :
    find_or_create_user infoLinkOk dbLinkOk [] =
      some (ResolveResult.ok
        { acctEmailOnly with sso_provider := some "apple", sso_id := some "s2" }
        (applyUpdate dbLinkOk
          { acctEmailOnly with sso_provider := some "apple", sso_id := some "s2" }),
        [StoreOp.lookupSso "apple" "s2",
         StoreOp.lookupEmail "e@x.com",
         StoreOp.update 2
           { acctEmailOnly with sso_provider := some "apple", sso_id := some "s2" }])
  ∧ (∀ b ∈ dbLinkOk.accounts, b.id ≠ acctEmailOnly.id →
      b ∈ (applyUpdate dbLinkOk
        { acctEmailOnly with sso_provider := some "apple", sso_id := some "s2" }).accounts) :=
  email_link_updates_only_sso_fields infoLinkOk dbLinkOk [] acctEmailOnly
    (by decide) (by decide) (by decide) (by decide) (by decide) (by decide)

/-- Both constraint checks of the provisioning path pass when no existing
account clashes with the new row on email, username or sso_id. -/
theorem provisionConflicts_false (info : SSOUserInfo) (db : DB) (uname : String)
    (hemail : ∀ b ∈ db.accounts, b.email ≠ info.email)
    (huname : usernameTaken db uname = false)
    (hssoid : ∀ b ∈ db.accounts, b.sso_id ≠ some info.sso_id) :
    insertConflict db (mkNewAccount db info uname) = false
  ∧ updateConflict
      { accounts := db.accounts ++ [mkNewAccount db info uname], nextId := db.nextId + 1 }
      { mkNewAccount db info uname with unusable_password := true } = false := by
  have hun : ∀ b ∈ db.accounts, b.username ≠ uname := by
    intro b hb
    have h0 : db.accounts.any (fun a => a.username == uname) = false := huname
    have := List.any_eq_false.mp h0 b hb
    simpa using this
  constructor
  · simp only [insertConflict, List.any_eq_false]
    intro b hb
    simp [mkNewAccount, hemail b hb, hun b hb, hssoid b hb]
  · simp only [updateConflict, List.any_eq_false]
    intro b hb
    rcases List.mem_append.mp hb with hbl | hbr
    · simp [mkNewAccount, hemail b hbl, hun b hbl, hssoid b hbl]
    · have hb0 : b = mkNewAccount db info uname := by simpa using hbr
      subst hb0
      simp [mkNewAccount]

/-- Successful provisioning: the loop chose a username and both the insert
and the follow-up save are accepted. -/
theorem provisionAccount_spec (info : SSOUserInfo) (db : DB) (suffixes : List String)
    (t : List StoreOp) (uname : String) (uops : List StoreOp)
    (hchoose : chooseUsername db (usernameBase info.email) suffixes = some (uname, uops))
    (hins : insertConflict db (mkNewAccount db info uname) = false)
    (hupd : updateConflict
      { accounts := db.accounts ++ [mkNewAccount db info uname], nextId := db.nextId + 1 }
      { mkNewAccount db info uname with unusable_password := true } = false) :
    provisionAccount info db suffixes t =
      some (ResolveResult.ok { mkNewAccount db info uname with unusable_password := true }
        (applyUpdate
          { accounts := db.accounts ++ [mkNewAccount db info uname], nextId := db.nextId + 1 }
          { mkNewAccount db info uname with unusable_password := true }),
        t ++ uops ++ [StoreOp.insert (mkNewAccount db info uname),
          StoreOp.update db.nextId
            { mkNewAccount db info uname with unusable_password := true }]) := by
  unfold provisionAccount
  rw [hchoose]
  simp only [hins, Bool.false_eq_true, if_false, hupd]
  rfl

/-- Saving the freshly inserted row rewrites only that row: with fresh ids
in the store, the result is the old rows plus the finished new row. -/
theorem applyUpdate_new_row (db : DB) (info : SSOUserInfo) (uname : String)
    (hid : ∀ b ∈ db.accounts, b.id ≠ db.nextId) :
    applyUpdate
      { accounts := db.accounts ++ [mkNewAccount db info uname], nextId := db.nextId + 1 }
      { mkNewAccount db info uname with unusable_password := true } =
      { accounts :=
          db.accounts ++ [{ mkNewAccount db info uname with unusable_password := true }],
        nextId := db.nextId + 1 } := by
  simp only [applyUpdate, List.map_append, DB.mk.injEq, and_true]
  have h1 : db.accounts.map
      (fun b => if b.id == ({ mkNewAccount db info uname with
        unusable_password := true } : Account).id
        then { mkNewAccount db info uname with unusable_password := true } else b) =
      db.accounts.map id := by
    apply List.map_congr_left
    intro b hb
    simp [mkNewAccount, hid b hb]
  rw [h1, List.map_id]
  simp [mkNewAccount]

/-- Claim C3 amended: when neither the (provider, sso_id) pair nor the
email matches any account, no existing account holds the asserted subject
id string under any provider, store ids are fresh, and the suffix oracle
lets the loop finish, find_or_create_user appends exactly one new account:
its provider and subject id are the assertion values, its username was
checked fresh against every existing username, its first and last name are
the asserted values or the blank string, and its password ends marked
unusable. -/
theorem provision_creates_fresh_account (info : SSOUserInfo) (db : DB)
    (suffixes : List String) (uname : String) (uops : List StoreOp)
    (hsso : findBySso db info.provider info.sso_id = none)
    (hemail : findByEmail db info.email = none)
    (hssoid : ∀ b ∈ db.accounts, b.sso_id ≠ some info.sso_id)
    (hid : ∀ b ∈ db.accounts, b.id ≠ db.nextId)
    (hchoose : chooseUsername db (usernameBase info.email) suffixes = some (uname, uops)) :
    (∃ t, find_or_create_user info db suffixes =
        some (ResolveResult.ok
          { mkNewAccount db info uname with unusable_password := true }
          { accounts := db.accounts ++
              [{ mkNewAccount db info uname with unusable_password := true }],
            nextId := db.nextId + 1 }, t))
  ∧ usernameTaken db uname = false
  ∧ ({ mkNewAccount db info uname with unusable_password := true } : Account).sso_provider
      = some info.provider
  ∧ ({ mkNewAccount db info uname with unusable_password := true } : Account).sso_id
      = some info.sso_id
  ∧ ({ mkNewAccount db info uname with unusable_password := true } : Account).first_name
      = info.first_name.getD ""
  ∧ ({ mkNewAccount db info uname with unusable_password := true } : Account).last_name
      = info.last_name.getD ""
  ∧ ({ mkNewAccount db info uname with unusable_password := true } : Account).unusable_password
      = true := by
  have hemailAll : ∀ b ∈ db.accounts, b.email ≠ info.email := by
    intro b hb
    have h0 : db.accounts.find? (fun a => a.email == info.email) = none := hemail
    have := List.find?_eq_none.mp h0 b hb
    simpa using this
  have hfresh := chooseUsername_fresh db (usernameBase info.email) suffixes uname uops hchoose
  obtain ⟨hins, hupd⟩ := provisionConflicts_false info db uname hemailAll hfresh hssoid
  have happ := applyUpdate_new_row db info uname hid
  refine ⟨?_, hfresh, rfl, rfl, rfl, rfl, rfl⟩
  simp only [find_or_create_user, hsso]
  by_cases hem : info.email = ""
  · refine ⟨[StoreOp.lookupSso info.provider info.sso_id] ++ uops ++
      [StoreOp.insert (mkNewAccount db info uname),
       StoreOp.update db.nextId
         { mkNewAccount db info uname with unusable_password := true }], ?_⟩
    have hembne : (info.email != "") = false := by simp [hem]
    simp only [hembne, Bool.false_eq_true, if_false]
    rw [provisionAccount_spec info db suffixes _ uname uops hchoose hins hupd, happ]
  · refine ⟨([StoreOp.lookupSso info.provider info.sso_id] ++
      [StoreOp.lookupEmail info.email]) ++ uops ++
      [StoreOp.insert (mkNewAccount db info uname),
       StoreOp.update db.nextId
         { mkNewAccount db info uname with unusable_password := true }], ?_⟩
    have hembne : (info.email != "") = true := bne_iff_ne.mpr hem
    simp only [hembne, if_true, hemail]
    rw [provisionAccount_spec info db suffixes _ uname uops hchoose hins hupd, happ]

/-- A google account holding subject id s9. -/
def acctGoogleS9 : Account :=
  { id := 1, username := "gg_aaaaaa", email := "gg@x.com", first_name := "",
    last_name := "", sso_provider := some "google", sso_id := some "s9",
    onboarding_completed := false, unusable_password := true }

/-- Store holding only the google account with subject id s9. -/
def dbProvClash : DB := { accounts := [acctGoogleS9], nextId := 2 }

/-- An apple assertion with a fresh email whose subject id string equals
the one the google account holds. -/
def infoProvClash : SSOUserInfo :=
  { provider := "apple", sso_id := "s9", email := "new@x.com",
    first_name := none, last_name := none }

/-- Claim C3 counterexample: the preconditions of the claim hold (no
(provider, subject_id) match, no email match), yet no account is created:
the insert is rejected by the unique constraint on sso_id because a google
account already holds the same subject id string, and the store is
unchanged. -/
theorem provision_sso_conflict_counterexample :
    findBySso dbProvClash "apple" "s9" = none
  ∧ findByEmail dbProvClash "new@x.com" = none
  ∧ (find_or_create_user infoProvClash dbProvClash ["zzzzzz"]).map (fun r => r.1) =
      some (ResolveResult.integrityError dbProvClash) := by
  refine ⟨by decide, by decide, by decide⟩

/-- A fresh apple assertion against an empty store. -/
def infoProvOk : SSOUserInfo :=
  { provider := "apple", sso_id := "s5", email := "a@x.com",
    first_name := some "Ann", last_name := none }

/-- Empty store. -/
def dbEmpty : DB := { accounts := [], nextId := 1 }

/-- Witness for claim C3: provisioning on an empty store. -/
theorem provision_creates_fresh_account_witness :
    (∃ t, find_or_create_user infoProvOk dbEmpty ["ab12cd"] =
        some (ResolveResult.ok
          { mkNewAccount dbEmpty infoProvOk "a_ab12cd" with unusable_password := true }
          { accounts := dbEmpty.accounts ++
              [{ mkNewAccount dbEmpty infoProvOk "a_ab12cd" with unusable_password := true }],
            nextId := dbEmpty.nextId + 1 }, t))
  ∧ usernameTaken dbEmpty "a_ab12cd" = false
  ∧ ({ mkNewAccount dbEmpty infoProvOk "a_ab12cd" with
        unusable_password := true } : Account).sso_provider = some "apple"
  ∧ ({ mkNewAccount dbEmpty infoProvOk "a_ab12cd" with
        unusable_password := true } : Account).sso_id = some "s5"
  ∧ ({ mkNewAccount dbEmpty infoProvOk "a_ab12cd" with
        unusable_password := true } : Account).first_name = (some "Ann").getD ""
  ∧ ({ mkNewAccount dbEmpty infoProvOk "a_ab12cd" with
        unusable_password := true } : Account).last_name = (none : Option String).getD ""
  ∧ ({ mkNewAccount dbEmpty infoProvOk "a_ab12cd" with
        unusable_password := true } : Account).unusable_password = true :=
  provision_creates_fresh_account infoProvOk dbEmpty ["ab12cd"] "a_ab12cd"
    [StoreOp.lookupUsername "a_ab12cd"]
    (by decide) (by decide) (by decide) (by decide) (by decide)

/-- Claim C7 amended: a successful provisioning run performs two store
writes, not one atomic operation: first an insert of the row with the SSO
fields set but the password not yet marked unusable, then an update of the
same row marking the password unusable. -/
theorem provision_insert_then_update (info : SSOUserInfo) (db : DB)
    (suffixes : List String) (uname : String) (uops : List StoreOp)
    (hsso : findBySso db info.provider info.sso_id = none)
    (hemail : findByEmail db info.email = none)
    (hssoid : ∀ b ∈ db.accounts, b.sso_id ≠ some info.sso_id)
    (hchoose : chooseUsername db (usernameBase info.email) suffixes = some (uname, uops)) :
    ∃ t, (∃ db2, find_or_create_user info db suffixes =
        some (ResolveResult.ok
          { mkNewAccount db info uname with unusable_password := true } db2, t))
      ∧ writeOps t = [StoreOp.insert (mkNewAccount db info uname),
          StoreOp.update db.nextId
            { mkNewAccount db info uname with unusable_password := true }]
      ∧ (mkNewAccount db info uname).unusable_password = false
      ∧ (mkNewAccount db info uname).sso_provider = some info.provider
      ∧ (mkNewAccount db info uname).sso_id = some info.sso_id := by
  have hemailAll : ∀ b ∈ db.accounts, b.email ≠ info.email := by
    intro b hb
    have h0 : db.accounts.find? (fun a => a.email == info.email) = none := hemail
    have := List.find?_eq_none.mp h0 b hb
    simpa using this
  have hfresh := chooseUsername_fresh db (usernameBase info.email) suffixes uname uops hchoose
  obtain ⟨hins, hupd⟩ := provisionConflicts_false info db uname hemailAll hfresh hssoid
  have hops := chooseUsername_ops db (usernameBase info.email) suffixes uname uops hchoose
  have huopsW : uops.filter StoreOp.isWrite = [] := by
    rw [List.filter_eq_nil_iff]
    intro op hop
    simp [(hops op hop).1]
  simp only [find_or_create_user, hsso]
  by_cases hem : info.email = ""
  · refine ⟨[StoreOp.lookupSso info.provider info.sso_id] ++ uops ++
      [StoreOp.insert (mkNewAccount db info uname),
       StoreOp.update db.nextId
         { mkNewAccount db info uname with unusable_password := true }],
      ⟨applyUpdate
        { accounts := db.accounts ++ [mkNewAccount db info uname], nextId := db.nextId + 1 }
        { mkNewAccount db info uname with unusable_password := true }, ?_⟩,
      ?_, rfl, rfl, rfl⟩
    · have hembne : (info.email != "") = false := by simp [hem]
      simp only [hembne, Bool.false_eq_true, if_false]
      rw [provisionAccount_spec info db suffixes _ uname uops hchoose hins hupd]
    · simp only [writeOps, List.filter_append, huopsW]
      rfl
  · refine ⟨([StoreOp.lookupSso info.provider info.sso_id] ++
      [StoreOp.lookupEmail info.email]) ++ uops ++
      [StoreOp.insert (mkNewAccount db info uname),
       StoreOp.update db.nextId
         { mkNewAccount db info uname with unusable_password := true }],
      ⟨applyUpdate
        { accounts := db.accounts ++ [mkNewAccount db info uname], nextId := db.nextId + 1 }
        { mkNewAccount db info uname with unusable_password := true }, ?_⟩,
      ?_, rfl, rfl, rfl⟩
    · have hembne : (info.email != "") = true := bne_iff_ne.mpr hem
      simp only [hembne, if_true, hemail]
      rw [provisionAccount_spec info db suffixes _ uname uops hchoose hins hupd]
    · simp only [writeOps, List.filter_append, huopsW]
      rfl

/-- A fresh google assertion used for the atomicity check. -/
def infoAtomic : SSOUserInfo :=
  { provider := "google", sso_id := "s7", email := "bob@x.com",
    first_name := none, last_name := none }

/-- Claim C7 counterexample: a concrete provisioning run against the empty
store performs two store writes, and the row the first write persists does
not yet have its password marked unusable; creation is not a single atomic
store operation. -/
theorem provision_two_writes_counterexample :
    (find_or_create_user infoAtomic dbEmpty ["qq11ww"]).map
        (fun r => ((writeOps r.2).length,
          match writeOps r.2 with
          | StoreOp.insert a :: _ => some a.unusable_password
          | _ => none)) =
      some (2, some false) := by decide

/-- Witness for claim C7: the two-write shape at a concrete input. -/
theorem provision_insert_then_update_witness :
    ∃ t, (∃ db2, find_or_create_user infoAtomic dbEmpty ["qq11ww"] =
        some (ResolveResult.ok
          { mkNewAccount dbEmpty infoAtomic "bob_qq11ww" with
              unusable_password := true } db2, t))
      ∧ writeOps t = [StoreOp.insert (mkNewAccount dbEmpty infoAtomic "bob_qq11ww"),
          StoreOp.update dbEmpty.nextId
            { mkNewAccount dbEmpty infoAtomic "bob_qq11ww" with
                unusable_password := true }]
      ∧ (mkNewAccount dbEmpty infoAtomic "bob_qq11ww").unusable_password = false
      ∧ (mkNewAccount dbEmpty infoAtomic "bob_qq11ww").sso_provider = some "google"
      ∧ (mkNewAccount dbEmpty infoAtomic "bob_qq11ww").sso_id = some "s7" :=
  provision_insert_then_update infoAtomic dbEmpty ["qq11ww"] "bob_qq11ww"
    [StoreOp.lookupUsername "bob_qq11ww"]
    (by decide) (by decide) (by decide) (by decide)

/-- Provisioning adds no (provider, sso_id) lookup beyond the trace it is
handed. -/
theorem provisionAccount_sso_count (info : SSOUserInfo) (db : DB)
    (suffixes : List String) (t0 : List StoreOp) (r : ResolveResult)
    (t : List StoreOp)
    (h : provisionAccount info db suffixes t0 = some (r, t)) :
    countSsoLookups t = countSsoLookups t0 := by
  unfold provisionAccount at h
  cases hch : chooseUsername db (usernameBase info.email) suffixes with
  | none => rw [hch] at h; simp at h
  | some pr =>
    obtain ⟨uname, uops⟩ := pr
    rw [hch] at h
    have hops := chooseUsername_ops db (usernameBase info.email) suffixes uname uops hch
    have hcnt : countSsoLookups uops = 0 := by
      simp only [countSsoLookups, List.countP_eq_zero]
      intro op hop
      simp [(hops op hop).2]
    by_cases hic : insertConflict db (mkNewAccount db info uname) = true
    · simp only [hic, if_true, Option.some.injEq, Prod.mk.injEq] at h
      obtain ⟨-, ht⟩ := h
      subst ht
      simp only [countSsoLookups, List.countP_append] at hcnt ⊢
      simp [hcnt, List.countP_cons, StoreOp.isSsoLookup]
    · simp only [hic, Bool.false_eq_true, if_false] at h
      by_cases huc : updateConflict
          { accounts := db.accounts ++ [mkNewAccount db info uname],
            nextId := db.nextId + 1 }
          { mkNewAccount db info uname with unusable_password := true } = true
      · simp only [huc, if_true, Option.some.injEq, Prod.mk.injEq] at h
        obtain ⟨-, ht⟩ := h
        subst ht
        simp only [countSsoLookups, List.countP_append] at hcnt ⊢
        simp [hcnt, List.countP_cons, StoreOp.isSsoLookup]
      · simp only [huc, Bool.false_eq_true, if_false, Option.some.injEq,
          Prod.mk.injEq] at h
        obtain ⟨-, ht⟩ := h
        subst ht
        simp only [countSsoLookups, List.countP_append] at hcnt ⊢
        simp [hcnt, List.countP_cons, StoreOp.isSsoLookup]

/-- Every completed run of find_or_create_user performs the
(provider, sso_id) lookup exactly once: the lookup-then-act sequence is
never rerun. -/
theorem find_or_create_user_one_sso_lookup (info : SSOUserInfo) (db : DB)
    (suffixes : List String) (r : ResolveResult) (t : List StoreOp)
    (h : find_or_create_user info db suffixes = some (r, t)) :
    countSsoLookups t = 1 := by
  cases hsso : findBySso db info.provider info.sso_id with
  | some u =>
    simp only [find_or_create_user, hsso, Option.some.injEq, Prod.mk.injEq] at h
    obtain ⟨-, ht⟩ := h
    subst ht
    simp [countSsoLookups, List.countP_cons, StoreOp.isSsoLookup]
  | none =>
    simp only [find_or_create_user, hsso] at h
    split at h
    · cases hfe : findByEmail db info.email with
      | some u =>
        simp only [hfe] at h
        split at h <;>
        · simp only [Option.some.injEq, Prod.mk.injEq] at h
          obtain ⟨-, ht⟩ := h
          subst ht
          simp [countSsoLookups, List.countP_cons, List.countP_append,
            StoreOp.isSsoLookup]
      | none =>
        simp only [hfe] at h
        have h2 := provisionAccount_sso_count info db suffixes _ r t h
        rw [h2]
        simp [countSsoLookups, List.countP_cons, List.countP_append,
          StoreOp.isSsoLookup]
    · have h2 := provisionAccount_sso_count info db suffixes _ r t h
      rw [h2]
      simp [countSsoLookups, List.countP_cons, StoreOp.isSsoLookup]

/-- Claim C6 amended: a uniqueness violation raised by the store during
find_or_create_user is surfaced by sso_authenticate as an immediate 500
server error, with no internal retry: the lookup-then-act sequence ran
exactly once. -/
theorem creation_conflict_immediate_500 (info : SSOUserInfo) (tok : String)
    (db dbE : DB) (suffixes : List String) (t : List StoreOp)
    (hprov : info.provider = "apple" ∨ info.provider = "google")
    (htok : tok ≠ "")
    (hres : find_or_create_user info db suffixes =
      some (ResolveResult.integrityError dbE, t)) :
    sso_authenticate (some info.provider) (some tok) (Except.ok info)
        none none none db suffixes =
      some { status := 500, db := dbE, trace := t }
  ∧ countSsoLookups t = 1 := by
  constructor
  · have hval : validProvider (some info.provider) = true := by
      rcases hprov with h | h <;> simp [validProvider, h]
    have htokb : truthy (some tok) = true := by
      simp [truthy, htok]
    have hover : applyOverrides info none none none = info := rfl
    simp only [sso_authenticate, hval, htokb, Bool.not_true, Bool.false_eq_true,
      if_false, hover, hres]
  · exact find_or_create_user_one_sso_lookup info db suffixes _ t hres

/-- An apple assertion with no email whose subject id string equals the one
the google account of dbProvClash holds. -/
def infoRetry : SSOUserInfo :=
  { provider := "apple", sso_id := "s9", email := "",
    first_name := none, last_name := none }

/-- Claim C6 counterexample: a provisioning insert rejected by the store is
answered 500 on the spot; the trace shows the lookup sequence ran exactly
once, so no internal retry of the lookup-then-act sequence took place
before the error was surfaced. -/
theorem creation_conflict_no_retry_counterexample :
    (sso_authenticate (some "apple") (some "tok") (Except.ok infoRetry)
        none none none dbProvClash ["cccccc"]).map
        (fun r => (r.status, countSsoLookups r.trace)) = some (500, 1) := by
  decide

/-- The trace of the conflicting provisioning run against dbProvClash. -/
def traceRetry : List StoreOp :=
  [StoreOp.lookupSso "apple" "s9",
   StoreOp.lookupUsername "user_cccccc",
   StoreOp.insert (mkNewAccount dbProvClash infoRetry "user_cccccc")]

/-- Witness for claim C6 at a concrete conflicting store. -/
theorem creation_conflict_immediate_500_witness :
    sso_authenticate (some "apple") (some "tok") (Except.ok infoRetry)
        none none none dbProvClash ["cccccc"] =
      some { status := 500, db := dbProvClash, trace := traceRetry }
  ∧ countSsoLookups traceRetry = 1 :=
  creation_conflict_immediate_500 infoRetry "tok" dbProvClash dbProvClash
    ["cccccc"] traceRetry (Or.inl rfl) (by decide) (by decide)

/-- After the email-link save, the (provider, sso_id) lookup returns the
linked row. -/
theorem findBySso_after_link (info : SSOUserInfo) (db : DB) (u : Account)
    (hsso : findBySso db info.provider info.sso_id = none)
    (hmem : u ∈ db.accounts) :
    findBySso (applyUpdate db
      { u with sso_provider := some info.provider, sso_id := some info.sso_id })
      info.provider info.sso_id =
      some { u with sso_provider := some info.provider, sso_id := some info.sso_id } := by
  have hnone : ∀ b ∈ db.accounts,
      ¬(b.sso_provider == some info.provider && b.sso_id == some info.sso_id) = true := by
    intro b hb
    have h0 : db.accounts.find?
        (fun a => a.sso_provider == some info.provider && a.sso_id == some info.sso_id) =
        none := hsso
    exact List.find?_eq_none.mp h0 b hb
  unfold findBySso applyUpdate
  apply find?_map_const
  · intro b hb hPb
    by_cases hid : (b.id == ({ u with sso_provider := some info.provider, sso_id := some info.sso_id } : Account).id) = true
    · simp only [if_pos hid]
    · simp only [if_neg hid] at hPb
      exact absurd hPb (hnone b hb)
  · refine ⟨u, hmem, ?_⟩
    simp

/-- After successful provisioning, the (provider, sso_id) lookup returns
the created row. -/
theorem findBySso_after_provision (info : SSOUserInfo) (db : DB)
    (suffixes : List String) (t0 : List StoreOp) (u : Account) (db2 : DB)
    (t : List StoreOp)
    (hsso : findBySso db info.provider info.sso_id = none)
    (h : provisionAccount info db suffixes t0 = some (ResolveResult.ok u db2, t)) :
    findBySso db2 info.provider info.sso_id = some u := by
  have hnone : ∀ b ∈ db.accounts,
      ¬(b.sso_provider == some info.provider && b.sso_id == some info.sso_id) = true := by
    intro b hb
    have h0 : db.accounts.find?
        (fun a => a.sso_provider == some info.provider && a.sso_id == some info.sso_id) =
        none := hsso
    exact List.find?_eq_none.mp h0 b hb
  unfold provisionAccount at h
  cases hch : chooseUsername db (usernameBase info.email) suffixes with
  | none => rw [hch] at h; simp at h
  | some pr =>
    obtain ⟨uname, uops⟩ := pr
    rw [hch] at h
    by_cases hic : insertConflict db (mkNewAccount db info uname) = true
    · simp only [hic, if_true] at h
      simp at h
    · simp only [hic, Bool.false_eq_true, if_false] at h
      by_cases huc : updateConflict { accounts := db.accounts ++ [mkNewAccount db info uname], nextId := db.nextId + 1 } { mkNewAccount db info uname with unusable_password := true } = true
      · simp only [huc, if_true] at h
        simp at h
      · simp only [huc, Bool.false_eq_true, if_false, Option.some.injEq,
          Prod.mk.injEq, ResolveResult.ok.injEq] at h
        obtain ⟨⟨hu, hdb⟩, -⟩ := h
        subst hu
        subst hdb
        unfold findBySso applyUpdate
        apply find?_map_const
        · intro b hb hPb
          by_cases hid : (b.id == ({ mkNewAccount db info uname with unusable_password := true } : Account).id) = true
          · simp only [if_pos hid]
          · simp only [if_neg hid] at hPb
            rcases List.mem_append.mp hb with hbl | hbr
            · exact absurd hPb (hnone b hbl)
            · have hb0 : b = mkNewAccount db info uname := by simpa using hbr
              subst hb0
              simp [mkNewAccount] at hid
        · refine ⟨mkNewAccount db info uname, List.mem_append.mpr (Or.inr (by simp)), ?_⟩
          simp [mkNewAccount]

/-- Claim C4: a second sequential resolution of the same assertion, after
any successful first one, hits the exact-match path: it returns the very
same account, leaves the store exactly as the first resolution left it,
and its trace is the single (provider, sso_id) lookup, so no further
account is created. -/
theorem find_or_create_user_idempotent (info : SSOUserInfo) (db db2 : DB)
    (suff suff2 : List String) (u : Account) (t : List StoreOp)
    (h : find_or_create_user info db suff = some (ResolveResult.ok u db2, t)) :
    find_or_create_user info db2 suff2 =
      some (ResolveResult.ok u db2,
        [StoreOp.lookupSso info.provider info.sso_id]) := by
  have hsso2 : findBySso db2 info.provider info.sso_id = some u := by
    cases hsso : findBySso db info.provider info.sso_id with
    | some u0 =>
      simp only [find_or_create_user, hsso, Option.some.injEq, Prod.mk.injEq,
        ResolveResult.ok.injEq] at h
      obtain ⟨⟨hu, hdb⟩, -⟩ := h
      rw [← hdb, ← hu]
      exact hsso
    | none =>
      simp only [find_or_create_user, hsso] at h
      split at h
      · cases hfe : findByEmail db info.email with
        | some u0 =>
          simp only [hfe] at h
          split at h
          · simp at h
          · simp only [Option.some.injEq, Prod.mk.injEq,
              ResolveResult.ok.injEq] at h
            obtain ⟨⟨hu, hdb⟩, -⟩ := h
            have hfe0 : db.accounts.find? (fun a => a.email == info.email) =
                some u0 := hfe
            have hmem := List.mem_of_find?_eq_some hfe0
            subst hu
            subst hdb
            exact findBySso_after_link info db u0 hsso hmem
        | none =>
          simp only [hfe] at h
          exact findBySso_after_provision info db suff _ u db2 t hsso h
      · exact findBySso_after_provision info db suff _ u db2 t hsso h
  unfold find_or_create_user
  rw [hsso2]

/-- An apple assertion for the idempotence witness. -/
def infoIdem : SSOUserInfo :=
  { provider := "apple", sso_id := "i1", email := "ida@x.com",
    first_name := none, last_name := some "Ng" }

/-- The account the first resolution of infoIdem provisions. -/
def acctIdem : Account :=
  { id := 1, username := "ida_xy89zz", email := "ida@x.com", first_name := "",
    last_name := "Ng", sso_provider := some "apple", sso_id := some "i1",
    onboarding_completed := false, unusable_password := true }

/-- The store after the first resolution of infoIdem. -/
def dbIdem : DB := { accounts := [acctIdem], nextId := 2 }

/-- The trace of the first resolution of infoIdem. -/
def tIdem : List StoreOp :=
  [StoreOp.lookupSso "apple" "i1",
   StoreOp.lookupEmail "ida@x.com",
   StoreOp.lookupUsername "ida_xy89zz",
   StoreOp.insert { acctIdem with unusable_password := false },
   StoreOp.update 1 acctIdem]

/-- Witness for claim C4: after a concrete provisioning run, resolving the
same assertion again returns the identical account with the store and a
read-only trace. -/
theorem find_or_create_user_idempotent_witness :
    find_or_create_user infoIdem dbIdem ["qqqqqq"] =
      some (ResolveResult.ok acctIdem dbIdem, [StoreOp.lookupSso "apple" "i1"]) :=
  find_or_create_user_idempotent infoIdem dbEmpty dbIdem ["xy89zz"] ["qqqqqq"]
    acctIdem tIdem (by decide)
